import Mathlib

/-!
Verification of the request-conversion module `apify/scrapy/requests.py`
(the Request Converter of the spec): the two functions `to_apify_request`
(crawler-to-platform) and `to_scrapy_request` (platform-to-crawler).

Modelling choices (shallow embedding):
* Python values that can occur in the meta/userData bags are an inductive
  `PyVal`: ordinary strings, dictionaries (association lists with Python's
  insertion-order update semantics), scrapy `Headers` objects, `None`, and
  `pickledStr v` — a *string* holding the base64-encoded pickle of the value
  `v`.  The pickle/base64 pair is opaque and reversible (spec §6: "exact byte
  format is an implementation detail ... must be reversible"), so the encoded
  text is kept as a distinguished constructor; decoding an ordinary string
  that is not such an encoding fails (an unpickling error, which is not a
  TypeError).
* The external framework's request type (scrapy.Request) is modelled from
  the spec (§3, §9) as an opaque record with `url`, `method`, `headers`,
  `meta` and a free-form `internal` bag for the framework-private fields the
  adapter round-trips but never inspects; `reqToDict`/`fromDict` are the
  framework's dictionary export/import capabilities (spec §9).
* Mutation of the input request (CPython reference semantics: the output's
  `userData` is the same object as the input's `meta['userData']`) is made
  explicit: `to_apify_request` returns the updated input request alongside
  the produced record.
* Logging: debug entries are ignored; warning-level diagnostics are returned
  as a list of `Diag` values.
* Errors: `TypeError` is `ConvError.typeKind`, `ValueError` for missing keys
  is `ConvError.validationKind` carrying the list of missing keys the message
  names; a failure of base64/pickle decoding itself is `ConvError.decodeKind`.
-/

/-- A Python value as it can appear in the request records and meta bags. -/
inductive PyVal where
  | str (s : String)
  | pickledStr (v : PyVal)
  | dict (entries : List (String × PyVal))
  | headersObj (entries : List (String × PyVal))
  | pyNone

/-- Python dict lookup `d.get(key)` on an association list. -/
def dGet : List (String × PyVal) → String → Option PyVal
  | [], _ => none
  | (k, v) :: rest, key => if key = k then some v else dGet rest key

/-- Python dict assignment `d[key] = val`: replaces in place if the key
exists (preserving insertion order), otherwise appends. -/
def dSet : List (String × PyVal) → String → PyVal → List (String × PyVal)
  | [], key, val => [(key, val)]
  | (k, v) :: rest, key, val =>
    if key = k then (k, val) :: rest else (k, v) :: dSet rest key val

/-- Python truthiness of a `PyVal` (`if x:`). -/
def PyVal.truthy : PyVal → Bool
  | .str s => !s.isEmpty
  | .pickledStr _ => true
  | .dict d => !d.isEmpty
  | .headersObj h => !h.isEmpty
  | .pyNone => false

/-- Python `isinstance(v, str)`: both ordinary and pickle-encoded strings are
Python strings. -/
def PyVal.isStr : PyVal → Bool
  | .str _ => true
  | .pickledStr _ => true
  | _ => false

/-- Python `isinstance(v, dict)`. -/
def PyVal.isDict : PyVal → Bool
  | .dict _ => true
  | _ => false

/-- Substring test `pat in s` on Python strings. -/
def strContains (s pat : String) : Bool :=
  (s.splitOn pat).length != 1

/-- The error taxonomy of the module (spec §7). -/
inductive ConvError where
  | typeKind
  | validationKind (missing : List String)
  | decodeKind
  | keyError
deriving DecidableEq, Repr

/-- Warning-level diagnostics the module can emit. -/
inductive Diag where
  | headersNotHeadersClass
  | headersNotDict
deriving DecidableEq, Repr

/-- Python `key in v` (membership).  On a dict or a Headers object it is key
membership; on a string it is the substring test; the key `'scrapy_request'`
contains `'_'`, which is not in the base64 alphabet, so it is never a
substring of a pickle/base64 encoding; on `None` it raises `TypeError`
("argument of type 'NoneType' is not iterable"). -/
def pyContains (v : PyVal) (key : String) : Except ConvError Bool :=
  match v with
  | .dict d => .ok (dGet d key).isSome
  | .headersObj h => .ok (dGet h key).isSome
  | .str s => .ok (strContains s key)
  | .pickledStr _ => .ok false
  | .pyNone => .error .typeKind

/-- Python `v[key]` (subscription).  Strings raise `TypeError` ("string
indices must be integers"), as does `None`; a missing key in a mapping is a
`KeyError` (unreachable here: callers test membership first). -/
def pyGetItem (v : PyVal) (key : String) : Except ConvError PyVal :=
  match v with
  | .dict d =>
    match dGet d key with
    | some x => .ok x
    | none => .error .keyError
  | .headersObj h =>
    match dGet h key with
    | some x => .ok x
    | none => .error .keyError
  | _ => .error .typeKind

/-- Python `v[key] = x` (item assignment).  Strings and `None` raise
`TypeError` ("... object does not support item assignment"). -/
def pySetItem (v : PyVal) (key : String) (x : PyVal) : Except ConvError PyVal :=
  match v with
  | .dict d => .ok (.dict (dSet d key x))
  | .headersObj h => .ok (.headersObj (dSet h key x))
  | _ => .error .typeKind

/-- Decoding `codecs.decode(s.encode(), 'base64')` + `pickle.loads`: recovers the value
from a pickle/base64 encoding; on an ordinary string it fails (an unpickling
error rather than a `TypeError`). -/
def decodePickle : PyVal → Option PyVal
  | .pickledStr v => some v
  | _ => none

/-- Modelled from the spec: the external crawling framework's request object
(scrapy.Request), an opaque record with the fields the adapter touches plus
a free-form `internal` bag for framework-private state (callbacks, retry
counters, flags — spec §3) that the adapter round-trips but never inspects. -/
structure ScrapyRequest where
  url : PyVal
  method : PyVal
  headers : PyVal
  meta : List (String × PyVal)
  internal : List (String × PyVal)

/-- A Python object handed to `to_apify_request`: either a scrapy Request
instance or some other value (which fails the `isinstance` check). -/
inductive PyObj where
  | req (r : ScrapyRequest)
  | val (v : PyVal)

/-- Modelled from the spec: `scrapy_request.to_dict(spider=spider)`, the
framework's dictionary-export facility (spec §9 `exportFields`). -/
def reqToDict (r : ScrapyRequest) : PyVal :=
  .dict [("url", r.url), ("method", r.method), ("headers", r.headers),
         ("meta", .dict r.meta), ("internal", .dict r.internal)]

/-- Modelled from the spec: `request_from_dict(d, spider=spider)`, the
framework's dictionary-import facility (spec §9 `importFields`); it fails to
produce a valid request when the exported fields are missing or malformed. -/
def fromDict (v : PyVal) : Option ScrapyRequest :=
  match v with
  | .dict d =>
    match dGet d "url", dGet d "method", dGet d "headers",
          dGet d "meta", dGet d "internal" with
    | some u, some m, some h, some (.dict mm), some (.dict ii) =>
      some ⟨u, m, h, mm, ii⟩
    | _, _, _, _, _ => none
  | _ => none

/-- The required keys of a platform record (requests.py line 89). -/
def requiredKeys : List String := ["url", "method", "id", "uniqueKey"]

/-- Header flattening of `to_apify_request` (requests.py lines 44–49): a
scrapy `Headers` instance is flattened via `to_unicode_dict()` to a plain
mapping under `headers`; anything else leaves the field absent and emits a
warning. -/
def apifyHeaders (r : ScrapyRequest) (d : List (String × PyVal)) :
    List (String × PyVal) × List Diag :=
  match r.headers with
  | .headersObj hs => (dSet d "headers" (.dict hs), [])
  | _ => (d, [.headersNotHeadersClass])

/-- First half of the identity passthrough of `to_apify_request` (requests.py
lines 51–53): `if scrapy_request.meta.get('apify_request_id'):` copy it to
`id`. -/
def apifyIdStep (r : ScrapyRequest) (d : List (String × PyVal)) :
    List (String × PyVal) :=
  match dGet r.meta "apify_request_id" with
  | some v => if v.truthy then dSet d "id" v else d
  | none => d

/-- Second half of the identity passthrough (requests.py lines 55–57):
`if scrapy_request.meta.get('apify_request_unique_key'):` copy it to
`uniqueKey`. -/
def apifyUkStep (r : ScrapyRequest) (d : List (String × PyVal)) :
    List (String × PyVal) :=
  match dGet r.meta "apify_request_unique_key" with
  | some v => if v.truthy then dSet d "uniqueKey" v else d
  | none => d

/-- Identity passthrough of `to_apify_request` (requests.py lines 51–57). -/
def apifyIds (r : ScrapyRequest) (d : List (String × PyVal)) :
    List (String × PyVal) :=
  apifyUkStep r (apifyIdStep r d)

/-- The function `to_apify_request(scrapy_request, spider)` (requests.py lines 19–69).
Returns the produced platform record, the input request as it stands after
the call (line 66 mutates `meta['userData']` in place when it was present:
the record's `userData` value and the input's `meta['userData']` are the
same object), and the warning diagnostics emitted. -/
def to_apify_request (obj : PyObj) :
    Except ConvError (List (String × PyVal) × ScrapyRequest × List Diag) :=
  match obj with
  | .val _ => .error .typeKind
  | .req r =>
    let ud0 : PyVal := (dGet r.meta "userData").getD (.dict [])
    let hd := apifyHeaders r [("url", r.url), ("method", r.method), ("userData", ud0)]
    let d2 := apifyIds r hd.1
    match pySetItem ud0 "scrapy_request" (.pickledStr (reqToDict r)) with
    | .error e => .error e
    | .ok ud1 =>
      .ok (dSet d2 "userData" ud1,
           if (dGet r.meta "userData").isSome
           then { r with meta := dSet r.meta "userData" ud1 } else r,
           hd.2)

/-- Modelled from the spec: `Request(url=..., method=..., meta=...)` — the
fresh request synthesized in branch B (requests.py lines 128–135); the
framework default for headers is an empty header collection and the
framework-private fields take their defaults. -/
def freshRequest (kvs : List (String × PyVal)) : ScrapyRequest :=
  { url := (dGet kvs "url").getD .pyNone
    method := (dGet kvs "method").getD .pyNone
    headers := .headersObj []
    meta := [("apify_request_id", (dGet kvs "id").getD .pyNone),
             ("apify_request_unique_key", (dGet kvs "uniqueKey").getD .pyNone)]
    internal := [] }

/-- The snapshot branch A of `to_scrapy_request` (requests.py lines 99–122):
decode the snapshot, rebuild the request, then overwrite the identity meta
fields with the live record's `id`/`uniqueKey`. -/
def restoreFromSnapshot (kvs : List (String × PyVal)) (sv : PyVal) :
    Except ConvError ScrapyRequest :=
  if sv.isStr then
    match decodePickle sv with
    | none => .error .decodeKind
    | some payload =>
      if payload.isDict then
        match fromDict payload with
        | none => .error .typeKind
        | some r0 =>
          let m0 := if r0.meta.isEmpty then [] else r0.meta
          let m1 := dSet m0 "apify_request_id" ((dGet kvs "id").getD .pyNone)
          let m2 := dSet m1 "apify_request_unique_key"
            ((dGet kvs "uniqueKey").getD .pyNone)
          .ok { r0 with meta := m2 }
      else .error .typeKind
  else .error .typeKind

/-- The branch selection of `to_scrapy_request` (requests.py lines 99 and
125): `'userData' in apify_request and 'scrapy_request' in
apify_request['userData']` picks branch A (snapshot restore, lines 99–122),
otherwise branch B synthesizes a fresh request (lines 124–135). -/
def coreConvert (kvs : List (String × PyVal)) : Except ConvError ScrapyRequest :=
  match dGet kvs "userData" with
  | some ud =>
    match pyContains ud "scrapy_request" with
    | .error e => .error e
    | .ok true =>
      match pyGetItem ud "scrapy_request" with
      | .error e => .error e
      | .ok sv => restoreFromSnapshot kvs sv
    | .ok false => .ok (freshRequest kvs)
  | none => .ok (freshRequest kvs)

/-- The shared post-processing of `to_scrapy_request` (requests.py lines
137–148): an optional `headers` field that is a plain dict becomes the
request's header collection (otherwise a warning is emitted), and an
optional `userData` field is attached to `meta['userData']`. -/
def postProcess (kvs : List (String × PyVal)) (s0 : ScrapyRequest) :
    ScrapyRequest × List Diag :=
  let p1 : ScrapyRequest × List Diag :=
    match dGet kvs "headers" with
    | some (.dict h) => ({ s0 with headers := .headersObj h }, [])
    | some _ => (s0, [Diag.headersNotDict])
    | none => (s0, [])
  match dGet kvs "userData" with
  | some ud => ({ p1.1 with meta := dSet p1.1.meta "userData" ud }, p1.2)
  | none => p1

/-- The function `to_scrapy_request(apify_request, spider)` (requests.py lines 72–151).
Returns the produced scrapy request together with the warning diagnostics
emitted. -/
def to_scrapy_request (a : PyVal) : Except ConvError (ScrapyRequest × List Diag) :=
  match a with
  | .dict kvs =>
    let missing := requiredKeys.filter (fun k => (dGet kvs k).isNone)
    if missing.isEmpty then
      match coreConvert kvs with
      | .error e => .error e
      | .ok s0 => .ok (postProcess kvs s0)
    else .error (.validationKind missing)
  | _ => .error .typeKind

/-- The filtering applied to a truthiness-guarded optional copy:
`meta.get(k)` copied only when truthy. -/
def truthyOpt : Option PyVal → Option PyVal
  | some v => if v.truthy then some v else none
  | none => none

/-! ### Inversion lemmas for the conversion stages -/

/-- The request whose snapshot carries the stale identity value "old"
(spec's identity-overwrite example). -/
def rOld : ScrapyRequest :=
  { url := .str "http://x", method := .str "GET", headers := .headersObj [],
    meta := [("apify_request_id", .str "old")], internal := [] }

/-- The serialized snapshot of `rOld`. -/
def svOld : PyVal := .pickledStr (reqToDict rOld)

/-- A live platform record carrying `svOld` but with reassigned identity
`id="new"`. -/
def kvsNew : List (String × PyVal) :=
  [("url", .str "http://x"), ("method", .str "GET"), ("id", .str "new"),
   ("uniqueKey", .str "k"), ("userData", .dict [("scrapy_request", svOld)])]

/-- The request `to_scrapy_request` reconstructs from `kvsNew`. -/
def sNew : ScrapyRequest :=
  { url := .str "http://x", method := .str "GET", headers := .headersObj [],
    meta := [("apify_request_id", .str "new"),
             ("apify_request_unique_key", .str "k"),
             ("userData", .dict [("scrapy_request", svOld)])],
    internal := [] }

/-- A record whose four required keys are all present but map to None. -/
def kvs9 : List (String × PyVal) :=
  [("url", .pyNone), ("method", .pyNone), ("id", .pyNone),
   ("uniqueKey", .pyNone)]

/-- The request `to_scrapy_request` builds from `kvs9`. -/
def s9 : ScrapyRequest :=
  { url := .pyNone, method := .pyNone, headers := .headersObj [],
    meta := [("apify_request_id", .pyNone),
             ("apify_request_unique_key", .pyNone)],
    internal := [] }

/-- A request whose meta *contains* `apify_request_id`, but with a falsy
value (the empty string). -/
def rC7 : ScrapyRequest :=
  { url := .str "u", method := .str "GET", headers := .headersObj [],
    meta := [("apify_request_id", .str ""),
             ("apify_request_unique_key", .str "k")],
    internal := [] }

/-- The record `to_apify_request` produces from `rC7`. -/
def aC7 : List (String × PyVal) :=
  [("url", .str "u"), ("method", .str "GET"),
   ("userData", .dict [("scrapy_request", .pickledStr (reqToDict rC7))]),
   ("headers", .dict []), ("uniqueKey", .str "k")]

/-- A request whose meta carries a userData mapping (initially empty). -/
def rC2 : ScrapyRequest :=
  { url := .str "u", method := .str "GET", headers := .headersObj [],
    meta := [("userData", .dict [])], internal := [] }

/-- The request `rC2` as it stands after `to_apify_request`: its `meta['userData']` has
gained the `scrapy_request` snapshot entry. -/
def rC2m : ScrapyRequest :=
  { url := .str "u", method := .str "GET", headers := .headersObj [],
    meta := [("userData",
              .dict [("scrapy_request", .pickledStr (reqToDict rC2))])],
    internal := [] }

/-- The record `to_apify_request` produces from `rC2`. -/
def aC2 : List (String × PyVal) :=
  [("url", .str "u"), ("method", .str "GET"),
   ("userData", .dict [("scrapy_request", .pickledStr (reqToDict rC2))]),
   ("headers", .dict [])]

/-- A request with malformed headers (None) and a meta userData that is a
plain string rather than a mapping. -/
def rBad : ScrapyRequest :=
  { url := .str "u", method := .str "GET", headers := .pyNone,
    meta := [("userData", .str "x")], internal := [] }

/-- A request with malformed headers (None) and no userData in meta. -/
def rC6 : ScrapyRequest :=
  { url := .str "u", method := .str "GET", headers := .pyNone,
    meta := [], internal := [] }

/-- The record `to_apify_request` produces from `rC6`: no headers key. -/
def aC6 : List (String × PyVal) :=
  [("url", .str "u"), ("method", .str "GET"),
   ("userData", .dict [("scrapy_request", .pickledStr (reqToDict rC6))])]

/-- A request with empty meta (never queued, no identity fields). -/
def rC1 : ScrapyRequest :=
  { url := .str "u", method := .str "GET", headers := .headersObj [],
    meta := [], internal := [] }

/-- The record `to_apify_request` produces from `rC1` (no id/uniqueKey). -/
def aC1 : List (String × PyVal) :=
  [("url", .str "u"), ("method", .str "GET"),
   ("userData", .dict [("scrapy_request", .pickledStr (reqToDict rC1))]),
   ("headers", .dict [])]

/-- A queued request with identity meta fields, extra meta, userData and
framework-internal state. -/
def rRt : ScrapyRequest :=
  { url := .str "http://x", method := .str "GET",
    headers := .headersObj [("A", .str "b")],
    meta := [("apify_request_id", .str "1"),
             ("apify_request_unique_key", .str "k"),
             ("flag", .str "f"),
             ("userData", .dict [("z", .str "w")])],
    internal := [("cb", .str "parse")] }

/-- The userData of `rRt` after the snapshot entry is added. -/
def udRt : PyVal :=
  .dict [("z", .str "w"), ("scrapy_request", .pickledStr (reqToDict rRt))]

/-- The platform record produced from `rRt`. -/
def aRt : List (String × PyVal) :=
  [("url", .str "http://x"), ("method", .str "GET"), ("userData", udRt),
   ("headers", .dict [("A", .str "b")]), ("id", .str "1"),
   ("uniqueKey", .str "k")]

/-- The request reconstructed from `aRt` (also `rRt` as mutated by the
forward conversion). -/
def rRtQ : ScrapyRequest :=
  { url := .str "http://x", method := .str "GET",
    headers := .headersObj [("A", .str "b")],
    meta := [("apify_request_id", .str "1"),
             ("apify_request_unique_key", .str "k"),
             ("flag", .str "f"),
             ("userData", udRt)],
    internal := [("cb", .str "parse")] }

/-- Is the result of `to_scrapy_request` a TypeError? -/
def isTypeKind : Except ConvError (ScrapyRequest × List Diag) → Bool
  | .error .typeKind => true
  | _ => false

/-- Is the result of the branch-A/B core a TypeError? -/
def isTypeKindCore : Except ConvError ScrapyRequest → Bool
  | .error .typeKind => true
  | _ => false

/-- A present snapshot value makes the restore raise a TypeError exactly
when it is not a string, or decodes to a non-mapping, or the payload does
not reconstruct into a valid request (decode failure of an ordinary string
is an unpickling error, not a TypeError). -/
def snapshotValueTypeErr (sv : PyVal) : Bool :=
  match sv with
  | .str _ => false
  | .pickledStr p => !p.isDict || (fromDict p).isNone
  | _ => true

/-- The TypeError cases of `to_scrapy_request`, stated over the record's
shape: the input is not a mapping; or, once validation has passed, a present
userData value itself breaks the snapshot lookup (None fails the membership
test; a string containing the key fails the string indexing); or a present
snapshot value fails as in `snapshotValueTypeErr`. -/
def typeKindSpec (a : PyVal) : Bool :=
  match a with
  | .dict kvs =>
    (requiredKeys.filter (fun k => (dGet kvs k).isNone)).isEmpty &&
      (match dGet kvs "userData" with
       | none => false
       | some .pyNone => true
       | some (.str s) => strContains s "scrapy_request"
       | some (.pickledStr _) => false
       | some (.dict u) =>
         (match dGet u "scrapy_request" with
          | none => false
          | some sv => snapshotValueTypeErr sv)
       | some (.headersObj u) =>
         (match dGet u "scrapy_request" with
          | none => false
          | some sv => snapshotValueTypeErr sv))
  | _ => true

/-- A record with all required keys whose userData is None. -/
def kvs8 : List (String × PyVal) :=
  [("url", .str "u"), ("method", .str "GET"), ("id", .str "1"),
   ("uniqueKey", .str "k"), ("userData", .pyNone)]

/-! ### Lemmas and claim theorems -/

theorem dGet_dSet (l : List (String × PyVal)) (k key : String) (v : PyVal) :
    dGet (dSet l k v) key = if key = k then some v else dGet l key := by
  induction l with
  | nil => by_cases h : key = k <;> simp [dGet, dSet, h]
  | cons p rest ih =>
    obtain ⟨pk, pv⟩ := p
    by_cases h1 : k = pk
    · subst h1
      by_cases h2 : key = k <;> simp [dGet, dSet, h2]
    · by_cases h2 : key = pk
      · subst h2
        have h3 : ¬key = k := fun h => h1 h.symm
        simp [dGet, dSet, h1, h3]
      · simp [dGet, dSet, h1, h2, ih]

theorem if_isEmpty_self {α : Type} (l : List α) :
    (if l.isEmpty then ([] : List α) else l) = l := by
  cases l <;> simp

theorem pySetItem_ok_props {v : PyVal} {k : String} {x v' : PyVal}
    (h : pySetItem v k x = .ok v') :
    pyContains v' k = .ok true ∧ pyGetItem v' k = .ok x := by
  cases v <;> simp [pySetItem] at h <;>
    simp [← h, pyContains, pyGetItem, dGet_dSet]

theorem apifyHeaders_get_ne (r : ScrapyRequest) (d : List (String × PyVal))
    {key : String} (h : key ≠ "headers") :
    dGet (apifyHeaders r d).1 key = dGet d key := by
  rcases hh : r.headers <;> simp [apifyHeaders, hh, dGet_dSet, h]

theorem apifyIdStep_get_ne (r : ScrapyRequest) (d : List (String × PyVal))
    {key : String} (h1 : key ≠ "id") :
    dGet (apifyIdStep r d) key = dGet d key := by
  rcases h3 : dGet r.meta "apify_request_id" with _ | v1
  · simp [apifyIdStep, h3]
  · by_cases ht : v1.truthy <;> simp [apifyIdStep, h3, ht, dGet_dSet, h1]

theorem apifyUkStep_get_ne (r : ScrapyRequest) (d : List (String × PyVal))
    {key : String} (h1 : key ≠ "uniqueKey") :
    dGet (apifyUkStep r d) key = dGet d key := by
  rcases h3 : dGet r.meta "apify_request_unique_key" with _ | v1
  · simp [apifyUkStep, h3]
  · by_cases ht : v1.truthy <;> simp [apifyUkStep, h3, ht, dGet_dSet, h1]

theorem apifyIdStep_id (r : ScrapyRequest) (d : List (String × PyVal))
    (hd0 : dGet d "id" = none) :
    dGet (apifyIdStep r d) "id" = truthyOpt (dGet r.meta "apify_request_id") := by
  rcases h3 : dGet r.meta "apify_request_id" with _ | v1
  · simp [apifyIdStep, h3, truthyOpt, hd0]
  · by_cases ht : v1.truthy <;>
      simp [apifyIdStep, h3, ht, truthyOpt, dGet_dSet, hd0]

theorem apifyUkStep_uniqueKey (r : ScrapyRequest) (d : List (String × PyVal))
    (hd0 : dGet d "uniqueKey" = none) :
    dGet (apifyUkStep r d) "uniqueKey"
      = truthyOpt (dGet r.meta "apify_request_unique_key") := by
  rcases h3 : dGet r.meta "apify_request_unique_key" with _ | v1
  · simp [apifyUkStep, h3, truthyOpt, hd0]
  · by_cases ht : v1.truthy <;>
      simp [apifyUkStep, h3, ht, truthyOpt, dGet_dSet, hd0]

theorem apifyIds_get_ne (r : ScrapyRequest) (d : List (String × PyVal))
    {key : String} (h1 : key ≠ "id") (h2 : key ≠ "uniqueKey") :
    dGet (apifyIds r d) key = dGet d key := by
  rw [apifyIds, apifyUkStep_get_ne r _ h2, apifyIdStep_get_ne r _ h1]

theorem apifyIds_id (r : ScrapyRequest) (d : List (String × PyVal))
    (hd0 : dGet d "id" = none) :
    dGet (apifyIds r d) "id" = truthyOpt (dGet r.meta "apify_request_id") := by
  rw [apifyIds, apifyUkStep_get_ne r _ (by simp), apifyIdStep_id r _ hd0]

theorem apifyIds_uniqueKey (r : ScrapyRequest) (d : List (String × PyVal))
    (hd0 : dGet d "uniqueKey" = none) :
    dGet (apifyIds r d) "uniqueKey"
      = truthyOpt (dGet r.meta "apify_request_unique_key") := by
  rw [apifyIds]
  rw [apifyUkStep_uniqueKey r _ (by rw [apifyIdStep_get_ne r _ (by simp), hd0])]

theorem to_apify_ok_inv {r : ScrapyRequest} {a : List (String × PyVal)}
    {r' : ScrapyRequest} {w : List Diag}
    (h : to_apify_request (.req r) = .ok (a, r', w)) :
    ∃ ud1, pySetItem ((dGet r.meta "userData").getD (.dict [])) "scrapy_request"
        (.pickledStr (reqToDict r)) = .ok ud1 ∧
      a = dSet (apifyIds r (apifyHeaders r
            [("url", r.url), ("method", r.method),
             ("userData", (dGet r.meta "userData").getD (.dict []))]).1)
            "userData" ud1 ∧
      r' = (if (dGet r.meta "userData").isSome
            then { r with meta := dSet r.meta "userData" ud1 } else r) ∧
      w = (apifyHeaders r [("url", r.url), ("method", r.method),
             ("userData", (dGet r.meta "userData").getD (.dict []))]).2 := by
  simp only [to_apify_request] at h
  rcases hps : pySetItem ((dGet r.meta "userData").getD (.dict []))
      "scrapy_request" (.pickledStr (reqToDict r)) with e | ud1
  · rw [hps] at h
    simp at h
  · rw [hps] at h
    simp [Prod.ext_iff] at h
    exact ⟨ud1, rfl, h.1.symm, h.2.1.symm, h.2.2.symm⟩

theorem to_scrapy_ok_inv {kvs : List (String × PyVal)} {s : ScrapyRequest}
    {w : List Diag} (h : to_scrapy_request (.dict kvs) = .ok (s, w)) :
    (requiredKeys.filter (fun k => (dGet kvs k).isNone)) = [] ∧
    ∃ s0, coreConvert kvs = .ok s0 ∧ (s, w) = postProcess kvs s0 := by
  simp only [to_scrapy_request] at h
  by_cases hemp : (requiredKeys.filter (fun k => (dGet kvs k).isNone)).isEmpty
  · rw [if_pos hemp] at h
    refine ⟨by simpa using hemp, ?_⟩
    rcases hc : coreConvert kvs with e | s0
    · rw [hc] at h
      simp at h
    · rw [hc] at h
      simp at h
      exact ⟨s0, rfl, by rw [h]⟩
  · rw [if_neg hemp] at h
    simp at h

theorem to_scrapy_ok_keys {kvs : List (String × PyVal)} {s : ScrapyRequest}
    {w : List Diag} (h : to_scrapy_request (.dict kvs) = .ok (s, w)) :
    (dGet kvs "url").isSome ∧ (dGet kvs "method").isSome ∧
    (dGet kvs "id").isSome ∧ (dGet kvs "uniqueKey").isSome := by
  have hf := (to_scrapy_ok_inv h).1
  have hall := List.filter_eq_nil_iff.mp hf
  have h1 := hall "url" (by simp [requiredKeys])
  have h2 := hall "method" (by simp [requiredKeys])
  have h3 := hall "id" (by simp [requiredKeys])
  have h4 := hall "uniqueKey" (by simp [requiredKeys])
  refine ⟨?_, ?_, ?_, ?_⟩ <;>
    simp_all [Option.isNone_iff_eq_none, Option.isSome_iff_ne_none]

theorem postProcess_url (kvs : List (String × PyVal)) (s0 : ScrapyRequest) :
    (postProcess kvs s0).1.url = s0.url := by
  unfold postProcess
  rcases hh : dGet kvs "headers" with _ | v
  · rcases hu : dGet kvs "userData" with _ | u <;> simp
  · rcases v <;> rcases hu : dGet kvs "userData" with _ | u <;> simp

theorem postProcess_method (kvs : List (String × PyVal)) (s0 : ScrapyRequest) :
    (postProcess kvs s0).1.method = s0.method := by
  unfold postProcess
  rcases hh : dGet kvs "headers" with _ | v
  · rcases hu : dGet kvs "userData" with _ | u <;> simp
  · rcases v <;> rcases hu : dGet kvs "userData" with _ | u <;> simp

theorem postProcess_internal (kvs : List (String × PyVal)) (s0 : ScrapyRequest) :
    (postProcess kvs s0).1.internal = s0.internal := by
  unfold postProcess
  rcases hh : dGet kvs "headers" with _ | v
  · rcases hu : dGet kvs "userData" with _ | u <;> simp
  · rcases v <;> rcases hu : dGet kvs "userData" with _ | u <;> simp

theorem postProcess_meta_ne (kvs : List (String × PyVal)) (s0 : ScrapyRequest)
    {key : String} (hk : key ≠ "userData") :
    dGet (postProcess kvs s0).1.meta key = dGet s0.meta key := by
  unfold postProcess
  rcases hh : dGet kvs "headers" with _ | v
  · rcases hu : dGet kvs "userData" with _ | u <;> simp [dGet_dSet, hk]
  · rcases v <;> rcases hu : dGet kvs "userData" with _ | u <;>
      simp [dGet_dSet, hk]

theorem postProcess_meta_userData (kvs : List (String × PyVal))
    (s0 : ScrapyRequest) {ud : PyVal} (h : dGet kvs "userData" = some ud) :
    dGet (postProcess kvs s0).1.meta "userData" = some ud := by
  unfold postProcess
  rcases hh : dGet kvs "headers" with _ | v
  · simp [h, dGet_dSet]
  · rcases v <;> simp [h, dGet_dSet]

theorem postProcess_headers_dict (kvs : List (String × PyVal))
    (s0 : ScrapyRequest) {hd : List (String × PyVal)}
    (h : dGet kvs "headers" = some (.dict hd)) :
    (postProcess kvs s0).1.headers = .headersObj hd := by
  unfold postProcess
  rcases hu : dGet kvs "userData" with _ | u <;> simp [h]

theorem postProcess_headers_none (kvs : List (String × PyVal))
    (s0 : ScrapyRequest) (h : dGet kvs "headers" = none) :
    (postProcess kvs s0).1.headers = s0.headers := by
  unfold postProcess
  rcases hu : dGet kvs "userData" with _ | u <;> simp [h]

theorem restoreFromSnapshot_ok_meta {kvs : List (String × PyVal)} {sv : PyVal}
    {r1 : ScrapyRequest} (h : restoreFromSnapshot kvs sv = .ok r1) :
    dGet r1.meta "apify_request_id" = some ((dGet kvs "id").getD .pyNone) ∧
    dGet r1.meta "apify_request_unique_key"
      = some ((dGet kvs "uniqueKey").getD .pyNone) := by
  unfold restoreFromSnapshot at h
  split at h
  · split at h
    · simp at h
    · split at h
      · split at h
        · simp at h
        · injection h with h3
          rw [← h3]
          simp [dGet_dSet]
      · simp at h
  · simp at h

theorem postProcess_meta_none (kvs : List (String × PyVal))
    (s0 : ScrapyRequest) (h : dGet kvs "userData" = none) :
    (postProcess kvs s0).1.meta = s0.meta := by
  unfold postProcess
  rcases hh : dGet kvs "headers" with _ | v
  · simp [h]
  · rcases v <;> simp [h]

theorem postProcess_meta_some (kvs : List (String × PyVal))
    (s0 : ScrapyRequest) {ud : PyVal} (h : dGet kvs "userData" = some ud) :
    (postProcess kvs s0).1.meta = dSet s0.meta "userData" ud := by
  unfold postProcess
  rcases hh : dGet kvs "headers" with _ | v
  · simp [h]
  · rcases v <;> simp [h]

theorem coreConvert_no_userData {kvs : List (String × PyVal)}
    (h : dGet kvs "userData" = none) :
    coreConvert kvs = .ok (freshRequest kvs) := by
  simp [coreConvert, h]

theorem coreConvert_snapshot {kvs u : List (String × PyVal)} {sv : PyVal}
    (hud : dGet kvs "userData" = some (.dict u))
    (hs : dGet u "scrapy_request" = some sv) :
    coreConvert kvs = restoreFromSnapshot kvs sv := by
  simp [coreConvert, hud, pyContains, hs, pyGetItem]

theorem pyContains_error {v : PyVal} {k : String} {e : ConvError}
    (h : pyContains v k = .error e) : e = .typeKind := by
  cases v <;> simp_all [pyContains]

theorem pyGetItem_error {v : PyVal} {k : String} {e : ConvError}
    (h : pyGetItem v k = .error e) : e = .typeKind ∨ e = .keyError := by
  cases v with
  | dict d =>
    rcases hd : dGet d k with _ | x <;> simp_all [pyGetItem]
  | headersObj d =>
    rcases hd : dGet d k with _ | x <;> simp_all [pyGetItem]
  | str s => simp_all [pyGetItem]
  | pickledStr p => simp_all [pyGetItem]
  | pyNone => simp_all [pyGetItem]

theorem restoreFromSnapshot_error {kvs : List (String × PyVal)} {sv : PyVal}
    {e : ConvError} (h : restoreFromSnapshot kvs sv = .error e) :
    e = .typeKind ∨ e = .decodeKind := by
  unfold restoreFromSnapshot at h
  split at h
  · split at h
    · simp at h
      simp [← h]
    · split at h
      · split at h
        · simp at h
          simp [← h]
        · simp at h
      · simp at h
        simp [← h]
  · simp at h
    simp [← h]

theorem coreConvert_error_shape {kvs : List (String × PyVal)} {e : ConvError}
    (h : coreConvert kvs = .error e) :
    e = .typeKind ∨ e = .decodeKind ∨ e = .keyError := by
  unfold coreConvert at h
  split at h
  · split at h
    · rename_i e1 hpc
      injection h with h1
      rcases pyContains_error hpc with h2
      simp [← h1, h2]
    · split at h
      · rename_i e1 hgi
        injection h with h1
        rcases pyGetItem_error hgi with h2 | h2 <;> simp [← h1, h2]
      · rcases restoreFromSnapshot_error h with h2 | h2 <;> simp [h2]
    · simp at h
  · simp at h

/-- C3: for every mapping input to `to_scrapy_request` in which any of the
keys url, method, id, uniqueKey is absent, the call fails with a
ValidationKind error naming every missing required key and only those; in
particular the record with only url and method fails naming exactly id and
uniqueKey (see the witness). -/
theorem C3_missing_required_keys (kvs : List (String × PyVal))
    (h : ∃ k ∈ requiredKeys, dGet kvs k = none) :
    to_scrapy_request (.dict kvs)
      = .error (.validationKind
          (requiredKeys.filter (fun k => (dGet kvs k).isNone))) ∧
    ∀ k, k ∈ requiredKeys.filter (fun k => (dGet kvs k).isNone)
      ↔ (k ∈ requiredKeys ∧ dGet kvs k = none) := by
  obtain ⟨k0, hk0, hnone⟩ := h
  have hmem : k0 ∈ requiredKeys.filter (fun k => (dGet kvs k).isNone) :=
    List.mem_filter.mpr ⟨hk0, by simp [hnone]⟩
  have hne : requiredKeys.filter (fun k => (dGet kvs k).isNone) ≠ [] := by
    intro hemp
    rw [hemp] at hmem
    simp at hmem
  constructor
  · simp only [to_scrapy_request]
    rw [if_neg (by simpa using hne)]
  · intro k
    simp [List.mem_filter, Option.isNone_iff_eq_none]

/-- Witness for C3: the spec's example record with only url and method fails
naming exactly id and uniqueKey. -/
theorem C3_missing_required_keys_witness :
    to_scrapy_request (.dict [("url", PyVal.str "http://x"),
        ("method", PyVal.str "GET")])
      = .error (.validationKind ["id", "uniqueKey"]) := by
  have h := C3_missing_required_keys
    [("url", PyVal.str "http://x"), ("method", PyVal.str "GET")]
    ⟨"id", by simp [requiredKeys], by simp [dGet]⟩
  exact h.1

/-- C5: for every platform record with all four required keys and no
userData snapshot, `to_scrapy_request` returns a freshly synthesized request
whose url and method equal the record's, and whose meta is exactly the two
identity fields (plus the record's userData value when present). -/
theorem C5_fresh_seed (kvs : List (String × PyVal)) (u m i q : PyVal)
    (hu : dGet kvs "url" = some u) (hm : dGet kvs "method" = some m)
    (hi : dGet kvs "id" = some i) (hq : dGet kvs "uniqueKey" = some q)
    (hns : match dGet kvs "userData" with
           | none => True
           | some ud => pyContains ud "scrapy_request" = .ok false) :
    ∃ s w, to_scrapy_request (.dict kvs) = .ok (s, w) ∧
      s.url = u ∧ s.method = m ∧
      s.meta = (match dGet kvs "userData" with
                | none => [("apify_request_id", i),
                           ("apify_request_unique_key", q)]
                | some ud => [("apify_request_id", i),
                              ("apify_request_unique_key", q),
                              ("userData", ud)]) := by
  have hcore : coreConvert kvs = .ok (freshRequest kvs) := by
    rcases hud : dGet kvs "userData" with _ | ud
    · exact coreConvert_no_userData hud
    · rw [hud] at hns
      simp [coreConvert, hud, hns]
  have hemp : (requiredKeys.filter (fun k => (dGet kvs k).isNone)).isEmpty
      = true := by
    simp [requiredKeys, hu, hm, hi, hq]
  refine ⟨(postProcess kvs (freshRequest kvs)).1,
          (postProcess kvs (freshRequest kvs)).2, ?_, ?_, ?_, ?_⟩
  · simp only [to_scrapy_request]
    rw [if_pos hemp, hcore]
  · rw [postProcess_url]
    simp [freshRequest, hu]
  · rw [postProcess_method]
    simp [freshRequest, hm]
  · rcases hud : dGet kvs "userData" with _ | ud
    · rw [postProcess_meta_none _ _ hud]
      simp [freshRequest, hi, hq]
    · rw [postProcess_meta_some _ _ hud]
      simp [freshRequest, hi, hq, dSet]

/-- Witness for C5 at the spec's example record (no userData). -/
theorem C5_fresh_seed_witness :
    ∃ s w, to_scrapy_request (.dict [("url", PyVal.str "http://x"),
        ("method", PyVal.str "GET"), ("id", PyVal.str "1"),
        ("uniqueKey", PyVal.str "k1")]) = Except.ok (s, w) ∧
      s.url = PyVal.str "http://x" ∧ s.method = PyVal.str "GET" ∧
      s.meta = [("apify_request_id", PyVal.str "1"),
                ("apify_request_unique_key", PyVal.str "k1")] := by
  have h := C5_fresh_seed [("url", PyVal.str "http://x"),
      ("method", PyVal.str "GET"), ("id", PyVal.str "1"),
      ("uniqueKey", PyVal.str "k1")]
    (PyVal.str "http://x") (PyVal.str "GET") (PyVal.str "1") (PyVal.str "k1")
    (by simp [dGet]) (by simp [dGet]) (by simp [dGet]) (by simp [dGet])
    (by simp [dGet])
  simpa using h

/-- C4: for every platform record whose userData carries a snapshot, when
`to_scrapy_request` succeeds the reconstructed request's identity meta
fields equal the live record's id and uniqueKey, regardless of the identity
values inside the snapshot. -/
theorem C4_identity_overwrite (kvs u : List (String × PyVal)) (sv : PyVal)
    (s : ScrapyRequest) (w : List Diag)
    (hud : dGet kvs "userData" = some (.dict u))
    (hs : dGet u "scrapy_request" = some sv)
    (hok : to_scrapy_request (.dict kvs) = .ok (s, w)) :
    dGet s.meta "apify_request_id" = dGet kvs "id" ∧
    dGet s.meta "apify_request_unique_key" = dGet kvs "uniqueKey" := by
  obtain ⟨hfilter, s0, hcore, hpost⟩ := to_scrapy_ok_inv hok
  have hkeys := to_scrapy_ok_keys hok
  rw [coreConvert_snapshot hud hs] at hcore
  have hmeta := restoreFromSnapshot_ok_meta hcore
  have hs_eq : s = (postProcess kvs s0).1 := by
    simpa using congrArg Prod.fst hpost
  obtain ⟨i, hi⟩ := Option.isSome_iff_exists.mp hkeys.2.2.1
  obtain ⟨q, hq⟩ := Option.isSome_iff_exists.mp hkeys.2.2.2
  constructor
  · rw [hs_eq, postProcess_meta_ne _ _ (by simp), hmeta.1, hi]
    simp
  · rw [hs_eq, postProcess_meta_ne _ _ (by simp), hmeta.2, hq]
    simp

/-- Witness for C4: the snapshot held `apify_request_id="old"`, the live
record holds `id="new"`, and the reconstructed request's meta says "new". -/
theorem C4_identity_overwrite_witness :
    dGet sNew.meta "apify_request_id" = some (PyVal.str "new") ∧
    dGet sNew.meta "apify_request_unique_key" = some (PyVal.str "k") := by
  have h := C4_identity_overwrite kvsNew [("scrapy_request", svOld)] svOld
    sNew [] rfl rfl rfl
  exact ⟨h.1.trans rfl, h.2.trans rfl⟩

/-- C10: in the snapshot branch the returned request's `meta['userData']` is
the input record's userData mapping itself, so it still carries the
serialized snapshot under `scrapy_request`; the snapshot is not stripped. -/
theorem C10_snapshot_not_stripped (kvs u : List (String × PyVal)) (sv : PyVal)
    (s : ScrapyRequest) (w : List Diag)
    (hud : dGet kvs "userData" = some (.dict u))
    (hs : dGet u "scrapy_request" = some sv)
    (hok : to_scrapy_request (.dict kvs) = .ok (s, w)) :
    dGet s.meta "userData" = some (.dict u) ∧
    pyGetItem (.dict u) "scrapy_request" = .ok sv := by
  obtain ⟨hfilter, s0, hcore, hpost⟩ := to_scrapy_ok_inv hok
  have hs_eq : s = (postProcess kvs s0).1 := by
    simpa using congrArg Prod.fst hpost
  refine ⟨?_, by simp [pyGetItem, hs]⟩
  rw [hs_eq]
  exact postProcess_meta_userData _ _ hud

/-- Witness for C10: the reconstructed request still carries the snapshot
string inside its `meta['userData']`. -/
theorem C10_snapshot_not_stripped_witness :
    dGet sNew.meta "userData" = some (PyVal.dict [("scrapy_request", svOld)]) ∧
    pyGetItem (PyVal.dict [("scrapy_request", svOld)]) "scrapy_request"
      = .ok svOld := by
  exact C10_snapshot_not_stripped kvsNew [("scrapy_request", svOld)] svOld
    sNew [] rfl rfl rfl

/-- C9: the required-key validation of `to_scrapy_request` tests only key
presence (never value type or truthiness), and the id/uniqueKey values are
copied verbatim into the identity meta fields in both branches. -/
theorem C9_presence_only (kvs : List (String × PyVal)) (u m i q : PyVal)
    (hu : dGet kvs "url" = some u) (hm : dGet kvs "method" = some m)
    (hi : dGet kvs "id" = some i) (hq : dGet kvs "uniqueKey" = some q) :
    (∀ ms, to_scrapy_request (.dict kvs) ≠ .error (.validationKind ms)) ∧
    (∀ s w, to_scrapy_request (.dict kvs) = .ok (s, w) →
      dGet s.meta "apify_request_id" = some i ∧
      dGet s.meta "apify_request_unique_key" = some q) := by
  have hemp : (requiredKeys.filter (fun k => (dGet kvs k).isNone)).isEmpty
      = true := by
    simp [requiredKeys, hu, hm, hi, hq]
  constructor
  · intro ms hcontra
    simp only [to_scrapy_request] at hcontra
    rw [if_pos hemp] at hcontra
    rcases hc : coreConvert kvs with e | s0
    · rw [hc] at hcontra
      simp at hcontra
      rcases coreConvert_error_shape hc with h2 | h2 | h2 <;>
        rw [h2] at hcontra <;> simp at hcontra
    · rw [hc] at hcontra
      simp at hcontra
  · intro s w hok
    obtain ⟨hfilter, s0, hcore, hpost⟩ := to_scrapy_ok_inv hok
    have hs_eq : s = (postProcess kvs s0).1 := by
      simpa using congrArg Prod.fst hpost
    have hids : dGet s0.meta "apify_request_id" = some i ∧
        dGet s0.meta "apify_request_unique_key" = some q := by
      unfold coreConvert at hcore
      split at hcore
      · split at hcore
        · simp at hcore
        · split at hcore
          · simp at hcore
          · have hm2 := restoreFromSnapshot_ok_meta hcore
            rw [hi, hq] at hm2
            simpa using hm2
        · injection hcore with hs0
          rw [← hs0]
          simp [freshRequest, hi, hq, dGet]
      · injection hcore with hs0
        rw [← hs0]
        simp [freshRequest, hi, hq, dGet]
    constructor
    · rw [hs_eq, postProcess_meta_ne _ _ (by simp)]
      exact hids.1
    · rw [hs_eq, postProcess_meta_ne _ _ (by simp)]
      exact hids.2

/-- Witness for C9: all four keys mapped to None pass validation and the
None values are copied verbatim into the identity meta fields. -/
theorem C9_presence_only_witness :
    dGet s9.meta "apify_request_id" = some PyVal.pyNone ∧
    dGet s9.meta "apify_request_unique_key" = some PyVal.pyNone := by
  have h := C9_presence_only kvs9 .pyNone .pyNone .pyNone .pyNone
    rfl rfl rfl rfl
  exact h.2 s9 [] rfl

/-- C7 (amended): `to_apify_request` copies `meta['apify_request_id']` to
the output's id exactly when the value is truthy (and likewise for
uniqueKey); an absent or falsy meta entry leaves the output key absent. -/
theorem C7_identity_passthrough (r : ScrapyRequest) (a : List (String × PyVal))
    (r' : ScrapyRequest) (w : List Diag)
    (hfw : to_apify_request (.req r) = .ok (a, r', w)) :
    dGet a "id" = truthyOpt (dGet r.meta "apify_request_id") ∧
    dGet a "uniqueKey" = truthyOpt (dGet r.meta "apify_request_unique_key") := by
  obtain ⟨ud1, hps, ha, hr', hw⟩ := to_apify_ok_inv hfw
  subst ha
  constructor
  · rw [dGet_dSet, if_neg (by decide),
      apifyIds_id r _ (by rw [apifyHeaders_get_ne r _ (by decide)]; simp [dGet])]
  · rw [dGet_dSet, if_neg (by decide),
      apifyIds_uniqueKey r _
        (by rw [apifyHeaders_get_ne r _ (by decide)]; simp [dGet])]

/-- Counterexample to C7 as stated: `rC7.meta` contains `apify_request_id`
(mapped to the falsy empty string), yet the produced record has no `id`
key — the code tests truthiness, not presence. -/
theorem C7_identity_passthrough_cex :
    dGet rC7.meta "apify_request_id" = some (PyVal.str "") ∧
    to_apify_request (.req rC7) = .ok (aC7, rC7, []) ∧
    dGet aC7 "id" = none :=
  ⟨rfl, rfl, rfl⟩

/-- Witness for C7 (amended) at `rC7`: the falsy id is dropped, the truthy
uniqueKey is copied. -/
theorem C7_identity_passthrough_witness :
    dGet aC7 "id" = truthyOpt (dGet rC7.meta "apify_request_id") ∧
    dGet aC7 "uniqueKey" = truthyOpt (dGet rC7.meta "apify_request_unique_key") :=
  C7_identity_passthrough rC7 aC7 rC7 [] rfl

/-- C2 (amended): `to_apify_request` leaves the input untouched when its
meta has no `userData`; when `meta['userData']` is a mapping the call
mutates it in place, adding the `scrapy_request` snapshot entry (CPython
reference semantics of requests.py line 66); the rest of meta is unchanged. -/
theorem C2_input_mutation (r : ScrapyRequest) (a : List (String × PyVal))
    (r' : ScrapyRequest) (w : List Diag)
    (hfw : to_apify_request (.req r) = .ok (a, r', w)) :
    (dGet r.meta "userData" = none → r' = r) ∧
    (∀ u, dGet r.meta "userData" = some (.dict u) →
      r'.meta = dSet r.meta "userData"
        (.dict (dSet u "scrapy_request" (.pickledStr (reqToDict r))))) := by
  obtain ⟨ud1, hps, ha, hr', hw⟩ := to_apify_ok_inv hfw
  constructor
  · intro hud
    rw [hr', hud]
    simp
  · intro u hud
    rw [hud] at hps hr'
    simp [pySetItem] at hps
    rw [hr']
    simp [hps]

/-- Counterexample to C2 as stated: converting `rC2` leaves the input with a
*different* meta than before the call — `meta['userData']` now contains the
`scrapy_request` snapshot, so the input was mutated. -/
theorem C2_input_mutation_cex :
    to_apify_request (.req rC2) = .ok (aC2, rC2m, []) ∧ rC2m.meta ≠ rC2.meta :=
  ⟨rfl, by simp [rC2, rC2m]⟩

/-- Witness for C2 (amended) at `rC2`: the after-call meta is exactly the
original with the snapshot entry added inside userData. -/
theorem C2_input_mutation_witness :
    rC2m.meta = dSet rC2.meta "userData"
      (.dict (dSet [] "scrapy_request" (.pickledStr (reqToDict rC2)))) :=
  (C2_input_mutation rC2 aC2 rC2m [] rfl).2 [] rfl

/-- C6 (amended): whenever `to_apify_request` succeeds, a headers field that
is not a scrapy Headers instance is omitted from the record with a warning
(conversion otherwise fully populated: url, method, userData with the
snapshot, identity fields when set), while a Headers instance is flattened
to a plain mapping under `headers` with no warning. -/
theorem C6_malformed_headers (r : ScrapyRequest) (a : List (String × PyVal))
    (r' : ScrapyRequest) (w : List Diag)
    (hfw : to_apify_request (.req r) = .ok (a, r', w)) :
    ((∀ hs, r.headers ≠ .headersObj hs) →
      w = [Diag.headersNotHeadersClass] ∧ dGet a "headers" = none) ∧
    (∀ hs, r.headers = .headersObj hs →
      w = [] ∧ dGet a "headers" = some (.dict hs)) ∧
    dGet a "url" = some r.url ∧
    dGet a "method" = some r.method ∧
    (∃ ud, dGet a "userData" = some ud ∧
      pyGetItem ud "scrapy_request" = .ok (.pickledStr (reqToDict r))) ∧
    (∀ v, dGet r.meta "apify_request_id" = some v → v.truthy = true →
      dGet a "id" = some v) ∧
    (∀ v, dGet r.meta "apify_request_unique_key" = some v → v.truthy = true →
      dGet a "uniqueKey" = some v) := by
  obtain ⟨ud1, hps, ha, hr', hw⟩ := to_apify_ok_inv hfw
  have hprops := pySetItem_ok_props hps
  subst ha
  refine ⟨?_, ?_, ?_, ?_, ?_, ?_, ?_⟩
  · intro hno
    rcases hh : r.headers with s | p | d | hs | _
    case headersObj => exact absurd hh (hno _)
    all_goals
      refine ⟨by rw [hw]; simp [apifyHeaders, hh], ?_⟩
    all_goals
      rw [dGet_dSet, if_neg (by decide),
        apifyIds_get_ne _ _ (by decide) (by decide)]
    all_goals simp [apifyHeaders, hh, dGet]
  · intro hs hh
    constructor
    · rw [hw]
      simp [apifyHeaders, hh]
    · rw [dGet_dSet, if_neg (by decide),
        apifyIds_get_ne _ _ (by decide) (by decide)]
      simp [apifyHeaders, hh, dGet_dSet]
  · rw [dGet_dSet, if_neg (by decide),
      apifyIds_get_ne _ _ (by decide) (by decide),
      apifyHeaders_get_ne _ _ (by decide)]
    simp [dGet]
  · rw [dGet_dSet, if_neg (by decide),
      apifyIds_get_ne _ _ (by decide) (by decide),
      apifyHeaders_get_ne _ _ (by decide)]
    simp [dGet]
  · exact ⟨ud1, by simp [dGet_dSet], hprops.2⟩
  · intro v hv ht
    rw [dGet_dSet, if_neg (by decide),
      apifyIds_id r _ (by rw [apifyHeaders_get_ne r _ (by decide)]; simp [dGet])]
    simp [truthyOpt, hv, ht]
  · intro v hv ht
    rw [dGet_dSet, if_neg (by decide),
      apifyIds_uniqueKey r _
        (by rw [apifyHeaders_get_ne r _ (by decide)]; simp [dGet])]
    simp [truthyOpt, hv, ht]

/-- Counterexample to C6 as stated: `rBad.headers` is not a Headers
instance, and `to_apify_request` *fails* (TypeError from the snapshot item
assignment on the string userData, requests.py line 66) instead of
returning a record. -/
theorem C6_malformed_headers_cex :
    rBad.headers = PyVal.pyNone ∧
    to_apify_request (.req rBad) = .error .typeKind :=
  ⟨rfl, rfl⟩

/-- Witness for C6 (amended) at `rC6`: the record lacks a headers key but
carries url, and the warning diagnostic was emitted. -/
theorem C6_malformed_headers_witness :
    dGet aC6 "headers" = none ∧ dGet aC6 "url" = some (PyVal.str "u") := by
  have h := C6_malformed_headers rC6 aC6 rC6 [Diag.headersNotHeadersClass] rfl
  exact ⟨(h.1 (by intro hs hcontra; simp [rC6] at hcontra)).2, h.2.2.1⟩

/-- The framework's dictionary import undoes its export (spec §6: the
snapshot encoding "must be reversible by the same serializer"). -/
theorem fromDict_reqToDict (r : ScrapyRequest) :
    fromDict (reqToDict r) = some r := rfl

theorem reqToDict_isDict (r : ScrapyRequest) : (reqToDict r).isDict = true := rfl

/-- C1 (amended): whenever converting a request to a platform record and
back both succeed, the result agrees with the original on url, method,
headers and the framework-internal fields, and on every meta key other than
the identity fields and `userData`; `meta['userData']` ends up as the
record's userData value (the original userData augmented with the
snapshot). -/
theorem C1_round_trip (r : ScrapyRequest) (a : List (String × PyVal))
    (r' s : ScrapyRequest) (w w2 : List Diag)
    (hfw : to_apify_request (.req r) = .ok (a, r', w))
    (hbk : to_scrapy_request (.dict a) = .ok (s, w2)) :
    s.url = r.url ∧ s.method = r.method ∧ s.headers = r.headers ∧
    s.internal = r.internal ∧
    (∀ k, k ≠ "apify_request_id" → k ≠ "apify_request_unique_key" →
      k ≠ "userData" → dGet s.meta k = dGet r.meta k) ∧
    dGet s.meta "userData" = dGet a "userData" := by
  obtain ⟨ud1, hps, ha, hr', hw⟩ := to_apify_ok_inv hfw
  have hprops := pySetItem_ok_props hps
  have hud : dGet a "userData" = some ud1 := by
    rw [ha]
    simp [dGet_dSet]
  obtain ⟨hfilter, s0, hcore, hpost⟩ := to_scrapy_ok_inv hbk
  have hs_eq : s = (postProcess a s0).1 := by
    simpa using congrArg Prod.fst hpost
  have hcc : coreConvert a = restoreFromSnapshot a (.pickledStr (reqToDict r)) := by
    simp [coreConvert, hud, hprops.1, hprops.2]
  have hrs : restoreFromSnapshot a (.pickledStr (reqToDict r))
      = .ok { r with
                meta := dSet (dSet r.meta "apify_request_id"
                          ((dGet a "id").getD .pyNone))
                        "apify_request_unique_key"
                        ((dGet a "uniqueKey").getD .pyNone) } := by
    simp [restoreFromSnapshot, decodePickle, PyVal.isStr, reqToDict_isDict,
      fromDict_reqToDict, if_isEmpty_self]
  rw [hcc, hrs] at hcore
  injection hcore with hs0
  subst hs0
  refine ⟨?_, ?_, ?_, ?_, ?_, ?_⟩
  · rw [hs_eq, postProcess_url]
  · rw [hs_eq, postProcess_method]
  · rcases hh : r.headers with s1 | p | d | hs | _
    case headersObj =>
      have hah : dGet a "headers" = some (.dict hs) := by
        rw [ha, dGet_dSet, if_neg (by decide),
          apifyIds_get_ne _ _ (by decide) (by decide)]
        simp [apifyHeaders, hh, dGet_dSet]
      rw [hs_eq, postProcess_headers_dict _ _ hah]
    all_goals
      have hah : dGet a "headers" = none := by
        rw [ha, dGet_dSet, if_neg (by decide),
          apifyIds_get_ne _ _ (by decide) (by decide)]
        simp [apifyHeaders, hh, dGet]
    all_goals
      rw [hs_eq, postProcess_headers_none _ _ hah]
      exact hh
  · rw [hs_eq, postProcess_internal]
  · intro k h1 h2 h3
    rw [hs_eq, postProcess_meta_ne _ _ h3]
    show dGet (dSet (dSet r.meta "apify_request_id" _)
      "apify_request_unique_key" _) k = dGet r.meta k
    rw [dGet_dSet, if_neg h2, dGet_dSet, if_neg h1]
  · rw [hs_eq, postProcess_meta_userData _ _ hud, hud]

/-- Counterexample to C1 as stated: for `rC1` (arbitrary meta — here empty)
the back conversion does not yield a request at all: the produced record
lacks id/uniqueKey, so `to_scrapy_request` fails with ValidationKind. -/
theorem C1_round_trip_cex :
    to_apify_request (.req rC1) = .ok (aC1, rC1, []) ∧
    to_scrapy_request (.dict aC1)
      = .error (.validationKind ["id", "uniqueKey"]) :=
  ⟨rfl, rfl⟩

/-- Witness for C1 (amended) on the concrete round trip of `rRt`. -/
theorem C1_round_trip_witness :
    rRtQ.url = rRt.url ∧ rRtQ.method = rRt.method ∧
    rRtQ.headers = rRt.headers ∧ rRtQ.internal = rRt.internal ∧
    dGet rRtQ.meta "flag" = dGet rRt.meta "flag" ∧
    dGet rRtQ.meta "userData" = dGet aRt "userData" := by
  have h := C1_round_trip rRt aRt rRtQ rRtQ [] [] rfl rfl
  exact ⟨h.1, h.2.1, h.2.2.1, h.2.2.2.1,
    h.2.2.2.2.1 "flag" (by decide) (by decide) (by decide), h.2.2.2.2.2⟩

theorem coreConvert_snapshot_headers {kvs u : List (String × PyVal)}
    {sv : PyVal} (hud : dGet kvs "userData" = some (.headersObj u))
    (hs : dGet u "scrapy_request" = some sv) :
    coreConvert kvs = restoreFromSnapshot kvs sv := by
  simp [coreConvert, hud, pyContains, hs, pyGetItem]

theorem isTypeKind_branch (kvs : List (String × PyVal))
    (c : Except ConvError ScrapyRequest) :
    isTypeKind (match c with
      | .error e => .error e
      | .ok s0 => .ok (postProcess kvs s0)) = isTypeKindCore c := by
  rcases c with e | s0
  · cases e <;> rfl
  · rfl

theorem restoreFromSnapshot_typeKind (kvs : List (String × PyVal))
    (sv : PyVal) :
    isTypeKindCore (restoreFromSnapshot kvs sv) = snapshotValueTypeErr sv := by
  rcases sv with s | p | d | h | _
  · rfl
  · rcases p with s2 | p2 | pd | h2 | _
    case dict =>
      rcases hf : fromDict (.dict pd) with _ | r0 <;>
        simp [restoreFromSnapshot, decodePickle, PyVal.isStr, PyVal.isDict,
          hf, isTypeKindCore, snapshotValueTypeErr]
    all_goals rfl
  · rfl
  · rfl
  · rfl

/-- C8 (amended): `to_scrapy_request` raises TypeError exactly in the shape
violations of `typeKindSpec` — not a mapping; a userData value that itself
breaks the snapshot lookup; a non-string snapshot value; a decoded payload
that is not a mapping; a payload that does not reconstruct into a valid
request.  `to_apify_request` raises TypeError when its input is not a
scrapy Request. -/
theorem C8_type_errors :
    (∀ a : PyVal, isTypeKind (to_scrapy_request a) = typeKindSpec a) ∧
    (∀ v : PyVal, to_apify_request (.val v) = .error .typeKind) := by
  refine ⟨?_, fun v => rfl⟩
  intro a
  rcases a with s | p | kvs | h | _
  · rfl
  · rfl
  · simp only [to_scrapy_request, typeKindSpec]
    by_cases hemp : (requiredKeys.filter (fun k => (dGet kvs k).isNone)).isEmpty
    · rw [if_pos hemp, hemp]
      simp only [Bool.true_and]
      rw [isTypeKind_branch]
      rcases hud : dGet kvs "userData" with _ | ud
      · rw [coreConvert_no_userData hud]
        rfl
      · rcases ud with s | p | u | u | _
        · by_cases hc : strContains s "scrapy_request"
          · have hcc : coreConvert kvs = .error .typeKind := by
              simp [coreConvert, hud, pyContains, hc, pyGetItem]
            simp [hcc, hc, isTypeKindCore]
          · have hcc : coreConvert kvs = .ok (freshRequest kvs) := by
              simp [coreConvert, hud, pyContains, hc]
            simp [hcc, hc, isTypeKindCore]
        · have hcc : coreConvert kvs = .ok (freshRequest kvs) := by
            simp [coreConvert, hud, pyContains]
          simp [hcc, isTypeKindCore]
        · rcases hsv : dGet u "scrapy_request" with _ | sv
          · have hcc : coreConvert kvs = .ok (freshRequest kvs) := by
              simp [coreConvert, hud, pyContains, hsv]
            simp [hcc, hsv, isTypeKindCore]
          · rw [coreConvert_snapshot hud hsv, restoreFromSnapshot_typeKind]
            simp [hsv]
        · rcases hsv : dGet u "scrapy_request" with _ | sv
          · have hcc : coreConvert kvs = .ok (freshRequest kvs) := by
              simp [coreConvert, hud, pyContains, hsv]
            simp [hcc, hsv, isTypeKindCore]
          · rw [coreConvert_snapshot_headers hud hsv,
              restoreFromSnapshot_typeKind]
            simp [hsv]
        · have hcc : coreConvert kvs = .error .typeKind := by
            simp [coreConvert, hud, pyContains]
          simp [hcc, isTypeKindCore]
    · rw [if_neg hemp]
      simp only [Bool.not_eq_true] at hemp
      rw [hemp]
      simp [isTypeKind]
  · rfl
  · rfl

/-- Counterexample to C8 as stated: `kvs8` is a mapping, has no snapshot
value at all (its userData is None, so none of the claim's four listed
cases apply), yet `to_scrapy_request` raises TypeError — the membership
test `'scrapy_request' in None` itself fails. -/
theorem C8_type_errors_cex :
    dGet kvs8 "userData" = some PyVal.pyNone ∧
    to_scrapy_request (.dict kvs8) = .error .typeKind :=
  ⟨rfl, rfl⟩
